import Mathlib

/-!
Verification of the sample-store service of the Liora repository
(server.py; server-electron.py differs only in how the training-data root
is located and is otherwise the same handler).  The handler logic is
embedded shallowly: the filesystem is an association list from component
paths to entries, JSON documents are an inductive value type, and the two
API operations are pure functions threading the filesystem state.
-/

set_option maxHeartbeats 1000000

namespace Liora

/-- JSON values as produced by json.loads: null, booleans, numbers
(integers suffice for this development), strings, arrays and objects.
Objects keep their fields as an ordered association list, matching the
insertion-ordered dict that json.loads builds. -/
inductive JValue where
  | jnull : JValue
  | jbool (b : Bool) : JValue
  | jnum (n : Int) : JValue
  | jstr (s : String) : JValue
  | jarr (elems : List JValue) : JValue
  | jobj (fields : List (String × JValue)) : JValue

/-- The Python type name of a parsed JSON value, used in AttributeError texts. -/
def pyTypeName : JValue → String
  | .jnull => "NoneType"
  | .jbool _ => "bool"
  | .jnum _ => "int"
  | .jstr _ => "str"
  | .jarr _ => "list"
  | .jobj _ => "dict"

/-- Whether a parsed document is a JSON object (a Python dict). -/
def JValue.isObj : JValue → Bool
  | .jobj _ => true
  | _ => false

/-- A POST body abstracted to the outcome of json.loads on it: either a
well-formed document with its parsed value, or malformed text together
with the message of the json.JSONDecodeError it raises. -/
inductive Raw where
  | wellFormed (v : JValue) : Raw
  | malformed (msg : String) : Raw

/-- The Python exceptions the handler can raise in the modelled region. -/
inductive PyErr where
  | jsonDecodeError (msg : String) : PyErr
  | attributeError (msg : String) : PyErr
  | fileExistsError (path : String) : PyErr
  | notADirectoryError (path : String) : PyErr
  | isADirectoryError (path : String) : PyErr
  | fileNotFoundError (path : String) : PyErr

/-- str(e): the message carried by the exception. -/
def PyErr.message : PyErr → String
  | .jsonDecodeError m => m
  | .attributeError m => m
  | .fileExistsError p => "File exists: " ++ p
  | .notADirectoryError p => "Not a directory: " ++ p
  | .isADirectoryError p => "Is a directory: " ++ p
  | .fileNotFoundError p => "No such file or directory: " ++ p

/-- Contents of a file on disk, abstracted to the outcome json.load has on
them: the files the server writes hold json.dump output, which json.load
parses back to the dumped value, and any other (corrupt) file makes
json.load raise. -/
inductive Content where
  | json (v : JValue) : Content
  | corrupt (msg : String) : Content

/-- A filesystem entry: a directory or a file with contents. -/
inductive Entry where
  | dir : Entry
  | file (c : Content) : Entry

/-- A path, as the list of its components between the separators. -/
abbrev Path := List String

/-- The filesystem: a finite association list from paths to entries, in
creation order (os.listdir order is unspecified by the source; the model
fixes it to insertion order, one admissible choice). -/
abbrev FS := List (Path × Entry)

/-- Entry stored at a path, if any. -/
def fsLookup (p : Path) : FS → Option Entry
  | [] => none
  | (q, e) :: rest => if q = p then some e else fsLookup p rest

/-- Create or overwrite the entry at a path, keeping its listing position
when it already exists. -/
def fsSet (p : Path) (e : Entry) : FS → FS
  | [] => [(p, e)]
  | (q, e0) :: rest => if q = p then (q, e) :: rest else (q, e0) :: fsSet p e rest

/-- os.listdir: immediate children names of a directory, in filesystem
order. -/
def listdir (p : Path) (fs : FS) : List String :=
  fs.filterMap (fun qe =>
    if qe.1.length = p.length + 1 ∧ qe.1.take p.length = p then
      (qe.1.drop p.length).head?
    else none)

/-- os.path.isdir. -/
def isDir (p : Path) (fs : FS) : Bool :=
  match fsLookup p fs with
  | some .dir => true
  | _ => false

/-- Number of file (non-directory) entries in the store. -/
def countFiles (fs : FS) : Nat :=
  fs.countP (fun pe => match pe.2 with | .file _ => true | .dir => false)

/-- Python single-character str.replace: s.replace(a, b) with
one-character arguments replaces every occurrence of the character a
by b. -/
def replaceChar (a b : Char) (s : String) : String :=
  ⟨s.data.map (fun c => if c = a then b else c)⟩

/-- Whether the character c occurs in s (used in statements only). -/
def strHasChar (s : String) (c : Char) : Bool :=
  decide (c ∈ s.data)

/-- Python str.startswith for a one-character pattern. -/
def startsWithChar (s : String) (c : Char) : Bool :=
  decide (s.data.head? = some c)

/-- Python str.endswith for a one-character pattern. -/
def endsWithChar (s : String) (c : Char) : Bool :=
  decide (s.data.getLast? = some c)

/-- Python str.endswith for a general suffix. -/
def strEndsWith (s suffix : String) : Bool :=
  decide (suffix.data <:+ s.data)

/-- os.path.join for two pieces (posixpath.join): if the second is
absolute it replaces the first; otherwise the separator is inserted
unless the first is empty or already ends with one. -/
def pathJoin (a b : String) : String :=
  if startsWithChar b '/' then b
  else if a = "" ∨ endsWithChar a '/' then a ++ b
  else a ++ "/" ++ b

/-- Split a character list at every occurrence of c; acc holds the
current piece reversed. -/
def splitAux (c : Char) : List Char → List Char → List (List Char)
  | [], acc => [acc.reverse]
  | x :: xs, acc =>
    if x = c then acc.reverse :: splitAux c xs []
    else splitAux c xs (x :: acc)

/-- Split a character list at every occurrence of c. -/
def splitOnChar (c : Char) (l : List Char) : List (List Char) :=
  splitAux c l []

/-- The components of a path string: how the OS resolves a written path,
splitting it at the separator. -/
def splitPath (s : String) : Path :=
  (splitOnChar '/' s.data).map (fun l => ⟨l⟩)

/-- TRAINING_DATA_DIR of server.py; server-electron.py prefixes it with a
caller-supplied base directory but the handler logic is unchanged. -/
def TRAINING_DATA_DIR : String := "training-data"

/-- os.makedirs(path, exist_ok equal True): create every missing prefix
of the path as a directory; an existing directory is fine, an existing
file raises (FileExistsError for the final component, NotADirectoryError
for an intermediate one, mirroring mkdir).  On failure nothing has been
created: the failing prefix exists as a file, so on a real filesystem all
shorter prefixes already exist as directories. -/
def makedirsAux (orig : String) (fs : FS) (done : Path) : List String → Except PyErr FS
  | [] => .ok fs
  | n :: rest =>
    match fsLookup (done ++ [n]) fs with
    | some .dir => makedirsAux orig fs (done ++ [n]) rest
    | some (.file _) =>
      if rest = [] then .error (.fileExistsError orig)
      else .error (.notADirectoryError orig)
    | none => makedirsAux orig (fsSet (done ++ [n]) .dir fs) (done ++ [n]) rest

/-- os.makedirs on a path string. -/
def makedirs (s : String) (fs : FS) : Except PyErr FS :=
  makedirsAux s fs [] (splitPath s)

/-- open(path, w) followed by json.dump: fails if the path is an existing
directory or its parent directory does not exist; otherwise creates or
overwrites the file (last write wins).  A single-component relative path
lives in the working directory, which always exists. -/
def writeFile (s : String) (c : Content) (fs : FS) : Except PyErr FS :=
  let p := splitPath s
  match fsLookup p fs with
  | some .dir => .error (.isADirectoryError s)
  | _ =>
    if p.dropLast = [] then .ok (fsSet p (.file c) fs)
    else
      match fsLookup p.dropLast fs with
      | some .dir => .ok (fsSet p (.file c) fs)
      | some (.file _) => .error (.notADirectoryError s)
      | none => .error (.fileNotFoundError s)

/-- dict.get(k): first (and, in a dict, only) binding of k. -/
def dictGet (k : String) : List (String × JValue) → Option JValue
  | [] => none
  | (k0, v) :: rest => if k0 = k then some v else dictGet k rest

/-- Assignment d[k] = v on an insertion-ordered dict: overwrite in place
or append. -/
def dictSet (k : String) (v : List JValue) :
    List (String × List JValue) → List (String × List JValue)
  | [] => [(k, v)]
  | (k0, v0) :: rest => if k0 = k then (k0, v) :: rest else (k0, v0) :: dictSet k v rest

/-- data.get(key, default) with a string default: AttributeError unless
the parsed document is an object (a Python dict). -/
def jGet (data : JValue) (k : String) (dflt : String) : Except PyErr JValue :=
  match data with
  | .jobj fields => .ok ((dictGet k fields).getD (.jstr dflt))
  | v => .error (.attributeError (pyTypeName v ++ " object has no attribute get"))

/-- value.replace(..) requires a str; anything else raises
AttributeError. -/
def asStr (v : JValue) : Except PyErr String :=
  match v with
  | .jstr s => .ok s
  | v => .error (.attributeError (pyTypeName v ++ " object has no attribute replace"))

/-- json.loads on the request body. -/
def parseBody : Raw → Except PyErr JValue
  | .wellFormed v => .ok v
  | .malformed m => .error (.jsonDecodeError m)

/-- The body of the try block of do_POST on /api/training-data, threading
the filesystem: parse the body, read gesture and timestamp with their
defaults, create the gesture directory, and write the sample file,
stopping at the first exception with the filesystem as mutated so far.
now is the datetime.now().isoformat() value this request would observe. -/
def savePipeline (raw : Raw) (now : String) (fs : FS) : Except PyErr String × FS :=
  match parseBody raw with
  | .error e => (.error e, fs)
  | .ok data =>
    match jGet data "gesture" "unknown" with
    | .error e => (.error e, fs)
    | .ok gJ =>
      match jGet data "timestamp" now with
      | .error e => (.error e, fs)
      | .ok tJ =>
        match asStr gJ with
        | .error e => (.error e, fs)
        | .ok gesture =>
          let gestureDir := pathJoin TRAINING_DATA_DIR (replaceChar '/' '_' gesture)
          match makedirs gestureDir fs with
          | .error e => (.error e, fs)
          | .ok fs1 =>
            match asStr tJ with
            | .error e => (.error e, fs1)
            | .ok timestamp =>
              let filename := gesture ++ "_" ++ replaceChar ':' '-' timestamp ++ ".json"
              let filepath := pathJoin gestureDir filename
              match writeFile filepath (.json data) fs1 with
              | .error e => (.error e, fs1)
              | .ok fs2 => (.ok filepath, fs2)

/-- An HTTP response of the handler: status code and optional JSON body. -/
structure Response where
  status : Nat
  body : Option JValue

/-- A JSON body carrying an error message. -/
def errJson (msg : String) : JValue :=
  .jobj [("error", .jstr msg)]

/-- The whole guarded region of do_POST: run the pipeline; on success
answer 200 with success true and the path written, on any exception
answer 500 with the error message. -/
def handleSave (raw : Raw) (now : String) (fs : FS) : Response × FS :=
  match savePipeline raw now fs with
  | (.error e, fs1) => (⟨500, some (errJson e.message)⟩, fs1)
  | (.ok fp, fs1) => (⟨200, some (.jobj [("success", .jbool true), ("file", .jstr fp)])⟩, fs1)

/-- Lower-casing of a header name, character by character. -/
def strLower (s : String) : String :=
  ⟨s.data.map Char.toLower⟩

/-- self.headers[k]: case-insensitive header lookup, None when absent. -/
def headerGet (k : String) : List (String × String) → Option String
  | [] => none
  | (k0, v) :: rest => if strLower k0 = strLower k then some v else headerGet k rest

/-- Digits of a decimal numeral, most significant first. -/
def parseNatAux : List Char → Nat → Option Nat
  | [], acc => some acc
  | c :: cs, acc =>
    if c.isDigit then parseNatAux cs (acc * 10 + (c.toNat - 48)) else none

/-- Python int() on a canonical decimal string: an optional minus sign and
at least one digit; anything else raises ValueError (none). -/
def pyInt? (s : String) : Option Int :=
  match s.data with
  | [] => none
  | c :: rest =>
    if c = '-' then
      if rest = [] then none
      else (parseNatAux rest 0).map (fun n => -(n : Int))
    else (parseNatAux (c :: rest) 0).map (fun n => (n : Int))

/-- do_POST: on /api/training-data, computing the body length from the
Content-Length header happens before the try block — int of None (missing
header) or of a non-numeric value raises there, so no response at all is
produced (none) — then the guarded save region runs; any other path is
answered 404 with an empty body. -/
def do_POST (path : String) (headers : List (String × String)) (raw : Raw)
    (now : String) (fs : FS) : Option (Response × FS) :=
  if path = "/api/training-data" then
    match headerGet "Content-Length" headers with
    | none => none
    | some cl =>
      match pyInt? cl with
      | none => none
      | some _ => some (handleSave raw now fs)
  else some (⟨404, none⟩, fs)

/-- The landmarks test and lookup on one parsed file: a dict containing
the key yields its value; a dict without it fails the membership test; on
a list or a str the subscript raises TypeError, swallowed by the per-file
except; on the other types the membership test itself raises, equally
swallowed — so every non-dict case contributes nothing. -/
def jLandmarks : JValue → Option JValue
  | .jobj fields => dictGet "landmarks" fields
  | _ => none

/-- One file of the load loop: open plus json.load plus the landmarks
lookup; a directory or a corrupt file makes this raise inside the
per-file try and the file is skipped. -/
def readLandmarks (p : Path) (fs : FS) : Option JValue :=
  match fsLookup p fs with
  | some (.file (.json v)) => jLandmarks v
  | _ => none

/-- The scan of do_GET /api/training-data/load: a missing root means an
empty corpus (not an error); a root that is not a directory makes
os.listdir raise, caught by the surrounding try; otherwise every
subdirectory contributes a key — its name with underscores turned back
into slashes — mapped to the landmarks of its well-formed .json files in
listing order.  Paths are handled componentwise here: real directory
entries never contain the separator, so os.path.join followed by open
resolves to exactly one more component. -/
def loadAll (fs : FS) : Except PyErr (List (String × List JValue)) :=
  match fsLookup (splitPath TRAINING_DATA_DIR) fs with
  | none => .ok []
  | some (.file _) => .error (.notADirectoryError TRAINING_DATA_DIR)
  | some .dir =>
    let root := splitPath TRAINING_DATA_DIR
    .ok ((listdir root fs).foldl (fun acc folder =>
      if isDir (root ++ [folder]) fs then
        let gestureName := replaceChar '_' '/' folder
        let samples := (listdir (root ++ [folder]) fs).foldl (fun ss fn =>
          if strEndsWith fn ".json" then
            match readLandmarks (root ++ [folder, fn]) fs with
            | some lm => ss ++ [lm]
            | none => ss
          else ss) []
        dictSet gestureName samples acc
      else acc) [])

/-- do_GET: the load endpoint serialises the aggregate (or the caught
error) as JSON; every other path falls through to the static file server,
outside this model (none). -/
def do_GET (path : String) (fs : FS) : Option Response :=
  if path = "/api/training-data/load" then
    match loadAll fs with
    | .ok m => some ⟨200, some (.jobj (m.map (fun kv => (kv.1, JValue.jarr kv.2))))⟩
    | .error e => some ⟨500, some (errJson e.message)⟩
  else none

/-- A sample document with explicit gesture, timestamp and landmarks. -/
def samplePayload (g t : String) (lm : JValue) : JValue :=
  .jobj [("gesture", .jstr g), ("timestamp", .jstr t), ("landmarks", lm)]

/-- The file name do_POST derives for a sample: the raw gesture, an
underscore, the timestamp with colons turned into dashes, and the .json
suffix. -/
def savedName (g t : String) : String :=
  g ++ "_" ++ replaceChar ':' '-' t ++ ".json"

/-! ## Helper lemmas -/

theorem strMk_data (s : String) : (⟨s.data⟩ : String) = s := by
  cases s
  rfl

theorem data_append (a b : String) : (a ++ b).data = a.data ++ b.data := by
  cases a
  cases b
  rfl

theorem data_eq_nil {s : String} (h : s.data = []) : s = "" := by
  cases s
  cases h
  rfl

theorem data_ne_nil {s : String} (h : s ≠ "") : s.data ≠ [] :=
  fun h2 => h (data_eq_nil h2)

theorem append_ne_empty_left {a : String} (b : String) (ha : a ≠ "") : a ++ b ≠ "" := by
  intro h
  have h2 : (a ++ b).data = [] := by rw [h]
  rw [data_append] at h2
  exact ha (data_eq_nil (List.append_eq_nil.mp h2).1)

theorem strHasChar_false {s : String} {c : Char} (h : strHasChar s c = false) :
    c ∉ s.data := by
  simpa [strHasChar] using h

theorem strHasChar_append {a b : String} {c : Char} :
    strHasChar (a ++ b) c = (strHasChar a c || strHasChar b c) := by
  simp only [strHasChar, data_append, List.mem_append]
  by_cases h : c ∈ a.data <;> simp [h]

theorem replaceChar_id {a b : Char} {s : String} (h : strHasChar s a = false) :
    replaceChar a b s = s := by
  have h' := strHasChar_false h
  have hmap : s.data.map (fun c => if c = a then b else c) = s.data.map id := by
    apply List.map_congr_left
    intro c hc
    simp only [id]
    have hca : c ≠ a := fun e => h' (e ▸ hc)
    exact if_neg hca
  rw [replaceChar, hmap, List.map_id]

theorem strHasChar_replaceChar_target {a b : Char} (s : String) (hba : b ≠ a) :
    strHasChar (replaceChar a b s) a = false := by
  simp only [strHasChar, replaceChar, decide_eq_false_iff_not]
  intro hmem
  rcases List.mem_map.mp hmem with ⟨c, _, hc⟩
  by_cases h : c = a
  · rw [if_pos h] at hc; exact hba hc
  · rw [if_neg h] at hc; exact h hc

theorem strHasChar_replaceChar_other {a b c : Char} {s : String}
    (hs : strHasChar s c = false) (hcb : c ≠ b) :
    strHasChar (replaceChar a b s) c = false := by
  have h' := strHasChar_false hs
  simp only [strHasChar, replaceChar, decide_eq_false_iff_not]
  intro hmem
  rcases List.mem_map.mp hmem with ⟨d, hd, hdc⟩
  by_cases h : d = a
  · rw [if_pos h] at hdc; exact hcb hdc.symm
  · rw [if_neg h] at hdc; exact h' (hdc ▸ hd)

theorem head?_mem {α : Type} {l : List α} {a : α} (h : l.head? = some a) : a ∈ l := by
  cases l with
  | nil => cases h
  | cons x xs =>
    injection h with h2
    exact h2 ▸ List.mem_cons_self x xs

theorem getLast?_mem {α : Type} {a : α} : ∀ {l : List α}, l.getLast? = some a → a ∈ l
  | [], h => by cases h
  | [x], h => by
    rw [List.getLast?_singleton] at h
    injection h with h2
    exact h2 ▸ List.mem_cons_self x []
  | x :: y :: ys, h => by
    rw [List.getLast?_cons_cons] at h
    exact List.mem_cons_of_mem x (getLast?_mem h)

theorem startsWithChar_false {s : String} {c : Char} (h : strHasChar s c = false) :
    startsWithChar s c = false := by
  have h' := strHasChar_false h
  simp only [startsWithChar, decide_eq_false_iff_not]
  exact fun he => h' (head?_mem he)

theorem endsWithChar_false {s : String} {c : Char} (h : strHasChar s c = false) :
    endsWithChar s c = false := by
  have h' := strHasChar_false h
  simp only [endsWithChar, decide_eq_false_iff_not]
  exact fun he => h' (getLast?_mem he)

theorem endsWithChar_append {a b : String} {c : Char} (hb : b ≠ "") :
    endsWithChar (a ++ b) c = endsWithChar b c := by
  simp only [endsWithChar, data_append]
  rw [List.getLast?_append_of_ne_nil _ (data_ne_nil hb)]

theorem startsWithChar_append_left {a b : String} {c : Char} (ha0 : a ≠ "") :
    startsWithChar (a ++ b) c = startsWithChar a c := by
  simp only [startsWithChar, data_append]
  cases hd : a.data with
  | nil => exact absurd hd (data_ne_nil ha0)
  | cons x xs => simp

theorem pathJoin_eq {a b : String} (ha0 : a ≠ "") (hae : endsWithChar a '/' = false)
    (hb : startsWithChar b '/' = false) : pathJoin a b = a ++ "/" ++ b := by
  simp [pathJoin, hb, hae, ha0]

theorem splitAux_no_sep {c : Char} {l : List Char} (h : c ∉ l) (acc : List Char) :
    splitAux c l acc = [acc.reverse ++ l] := by
  induction l generalizing acc with
  | nil => simp [splitAux]
  | cons x xs ih =>
    have hx : x ≠ c := fun e => h (e ▸ List.mem_cons_self x xs)
    rw [splitAux, if_neg hx, ih (fun hc => h (List.mem_cons_of_mem x hc))]
    simp

theorem splitAux_sep {c : Char} {l₁ l₂ : List Char} (h : c ∉ l₁) (acc : List Char) :
    splitAux c (l₁ ++ c :: l₂) acc = (acc.reverse ++ l₁) :: splitOnChar c l₂ := by
  induction l₁ generalizing acc with
  | nil => simp [splitAux, splitOnChar]
  | cons x xs ih =>
    have hx : x ≠ c := fun e => h (e ▸ List.mem_cons_self x xs)
    rw [List.cons_append, splitAux, if_neg hx, ih (fun hc => h (List.mem_cons_of_mem x hc))]
    simp

theorem splitOnChar_sep {c : Char} {l₁ l₂ : List Char} (h : c ∉ l₁) :
    splitOnChar c (l₁ ++ c :: l₂) = l₁ :: splitOnChar c l₂ := by
  rw [splitOnChar, splitAux_sep h]
  simp

theorem splitOnChar_no_sep {c : Char} {l : List Char} (h : c ∉ l) :
    splitOnChar c l = [l] := by
  rw [splitOnChar, splitAux_no_sep h]
  simp

theorem splitPath_two {a b : String} (ha : strHasChar a '/' = false)
    (hb : strHasChar b '/' = false) : splitPath (a ++ "/" ++ b) = [a, b] := by
  have hdata : (a ++ "/" ++ b).data = a.data ++ '/' :: b.data := by
    rw [data_append, data_append, List.append_assoc]
    rfl
  rw [splitPath, hdata, splitOnChar_sep (strHasChar_false ha),
    splitOnChar_no_sep (strHasChar_false hb)]
  simp [strMk_data]

theorem splitPath_three {a b c : String} (ha : strHasChar a '/' = false)
    (hb : strHasChar b '/' = false) (hc : strHasChar c '/' = false) :
    splitPath (a ++ "/" ++ b ++ "/" ++ c) = [a, b, c] := by
  have hdata : (a ++ "/" ++ b ++ "/" ++ c).data = a.data ++ '/' :: (b.data ++ '/' :: c.data) := by
    rw [data_append, data_append, data_append, data_append, List.append_assoc,
      List.append_assoc, List.append_assoc]
    rfl
  rw [splitPath, hdata, splitOnChar_sep (strHasChar_false ha),
    splitOnChar_sep (strHasChar_false hb), splitOnChar_no_sep (strHasChar_false hc)]
  simp [strMk_data]

theorem makedirsAux_two (orig a b : String) :
    makedirsAux orig [] [] [a, b] = .ok [([a], Entry.dir), ([a, b], Entry.dir)] := by
  simp [makedirsAux, fsLookup, fsSet]

theorem writeFile_step {td g fn : String} (s : String) (c : Content)
    (hsplit : splitPath s = [td, g, fn]) :
    writeFile s c [([td], Entry.dir), ([td, g], Entry.dir)] =
      .ok [([td], Entry.dir), ([td, g], Entry.dir), ([td, g, fn], Entry.file c)] := by
  simp [writeFile, hsplit, fsLookup, fsSet, List.dropLast]

theorem savePipeline_obj {fields : List (String × JValue)} {now g t : String}
    (hG : (dictGet "gesture" fields).getD (.jstr "unknown") = .jstr g)
    (hT : (dictGet "timestamp" fields).getD (.jstr now) = .jstr t)
    (hg : strHasChar g '/' = false) (hg0 : g ≠ "")
    (ht : strHasChar t '/' = false) :
    savePipeline (.wellFormed (.jobj fields)) now [] =
      (.ok (TRAINING_DATA_DIR ++ "/" ++ g ++ "/" ++ savedName g t),
       [([TRAINING_DATA_DIR], Entry.dir), ([TRAINING_DATA_DIR, g], Entry.dir),
        ([TRAINING_DATA_DIR, g, savedName g t], Entry.file (.json (.jobj fields)))]) := by
  have hsw : startsWithChar g '/' = false := startsWithChar_false hg
  have htd0 : (TRAINING_DATA_DIR : String) ≠ "" := by decide
  have htde : endsWithChar TRAINING_DATA_DIR '/' = false := by decide
  have htdh : strHasChar TRAINING_DATA_DIR '/' = false := by decide
  have hdir : pathJoin TRAINING_DATA_DIR (replaceChar '/' '_' g) =
      TRAINING_DATA_DIR ++ "/" ++ g := by
    rw [replaceChar_id hg, pathJoin_eq htd0 htde hsw]
  have ht' : strHasChar (replaceChar ':' '-' t) '/' = false :=
    strHasChar_replaceChar_other ht (by decide)
  have hfn : strHasChar (savedName g t) '/' = false := by
    rw [savedName, strHasChar_append, strHasChar_append, strHasChar_append, hg, ht']
    decide
  have hfsw : startsWithChar (savedName g t) '/' = false := by
    rw [savedName,
      startsWithChar_append_left (append_ne_empty_left _ (append_ne_empty_left _ hg0)),
      startsWithChar_append_left (append_ne_empty_left _ hg0),
      startsWithChar_append_left hg0, hsw]
  have hpe : pathJoin (TRAINING_DATA_DIR ++ "/" ++ g) (savedName g t) =
      TRAINING_DATA_DIR ++ "/" ++ g ++ "/" ++ savedName g t := by
    apply pathJoin_eq
    · exact append_ne_empty_left _ (append_ne_empty_left _ htd0)
    · rw [endsWithChar_append hg0]
      exact endsWithChar_false hg
    · exact hfsw
  have hsplit : splitPath (TRAINING_DATA_DIR ++ "/" ++ g ++ "/" ++ savedName g t) =
      [TRAINING_DATA_DIR, g, savedName g t] := splitPath_three htdh hg hfn
  have hname : g ++ "_" ++ replaceChar ':' '-' t ++ ".json" = savedName g t := rfl
  simp only [savePipeline, parseBody, jGet, hG, hT, asStr, hdir, makedirs,
    splitPath_two htdh hg, makedirsAux_two, hname, hpe, writeFile_step _ _ hsplit]

theorem splitPath_root : splitPath TRAINING_DATA_DIR = [TRAINING_DATA_DIR] := by decide

theorem loadAll_single {g fn : String} {v lm : JValue}
    (hfn : strEndsWith fn ".json" = true) (hv : jLandmarks v = some lm) :
    loadAll [([TRAINING_DATA_DIR], Entry.dir), ([TRAINING_DATA_DIR, g], Entry.dir),
             ([TRAINING_DATA_DIR, g, fn], Entry.file (.json v))] =
      .ok [(replaceChar '_' '/' g, [lm])] := by
  simp [loadAll, splitPath_root, fsLookup, listdir, isDir, readLandmarks, hv, hfn,
    dictSet, List.filterMap, List.take, List.foldl]

theorem savePipeline_second {fields : List (String × JValue)} {now g t fn0 : String}
    {c0 : Content}
    (hG : (dictGet "gesture" fields).getD (.jstr "unknown") = .jstr g)
    (hT : (dictGet "timestamp" fields).getD (.jstr now) = .jstr t)
    (hg : strHasChar g '/' = false) (hg0 : g ≠ "")
    (ht : strHasChar t '/' = false) :
    savePipeline (.wellFormed (.jobj fields)) now
        [([TRAINING_DATA_DIR], Entry.dir), ([TRAINING_DATA_DIR, g], Entry.dir),
         ([TRAINING_DATA_DIR, g, fn0], Entry.file c0)] =
      (.ok (TRAINING_DATA_DIR ++ "/" ++ g ++ "/" ++ savedName g t),
       if fn0 = savedName g t then
         [([TRAINING_DATA_DIR], Entry.dir), ([TRAINING_DATA_DIR, g], Entry.dir),
          ([TRAINING_DATA_DIR, g, fn0], Entry.file (.json (.jobj fields)))]
       else
         [([TRAINING_DATA_DIR], Entry.dir), ([TRAINING_DATA_DIR, g], Entry.dir),
          ([TRAINING_DATA_DIR, g, fn0], Entry.file c0),
          ([TRAINING_DATA_DIR, g, savedName g t], Entry.file (.json (.jobj fields)))]) := by
  have hsw : startsWithChar g '/' = false := startsWithChar_false hg
  have htd0 : (TRAINING_DATA_DIR : String) ≠ "" := by decide
  have htde : endsWithChar TRAINING_DATA_DIR '/' = false := by decide
  have htdh : strHasChar TRAINING_DATA_DIR '/' = false := by decide
  have hdir : pathJoin TRAINING_DATA_DIR (replaceChar '/' '_' g) =
      TRAINING_DATA_DIR ++ "/" ++ g := by
    rw [replaceChar_id hg, pathJoin_eq htd0 htde hsw]
  have ht' : strHasChar (replaceChar ':' '-' t) '/' = false :=
    strHasChar_replaceChar_other ht (by decide)
  have hfn : strHasChar (savedName g t) '/' = false := by
    rw [savedName, strHasChar_append, strHasChar_append, strHasChar_append, hg, ht']
    decide
  have hfsw : startsWithChar (savedName g t) '/' = false := by
    rw [savedName,
      startsWithChar_append_left (append_ne_empty_left _ (append_ne_empty_left _ hg0)),
      startsWithChar_append_left (append_ne_empty_left _ hg0),
      startsWithChar_append_left hg0, hsw]
  have hpe : pathJoin (TRAINING_DATA_DIR ++ "/" ++ g) (savedName g t) =
      TRAINING_DATA_DIR ++ "/" ++ g ++ "/" ++ savedName g t := by
    apply pathJoin_eq
    · exact append_ne_empty_left _ (append_ne_empty_left _ htd0)
    · rw [endsWithChar_append hg0]
      exact endsWithChar_false hg
    · exact hfsw
  have hsplit : splitPath (TRAINING_DATA_DIR ++ "/" ++ g ++ "/" ++ savedName g t) =
      [TRAINING_DATA_DIR, g, savedName g t] := splitPath_three htdh hg hfn
  have hname : g ++ "_" ++ replaceChar ':' '-' t ++ ".json" = savedName g t := rfl
  have hmk : makedirsAux (TRAINING_DATA_DIR ++ "/" ++ g)
      [([TRAINING_DATA_DIR], Entry.dir), ([TRAINING_DATA_DIR, g], Entry.dir),
       ([TRAINING_DATA_DIR, g, fn0], Entry.file c0)] [] [TRAINING_DATA_DIR, g] =
      .ok [([TRAINING_DATA_DIR], Entry.dir), ([TRAINING_DATA_DIR, g], Entry.dir),
           ([TRAINING_DATA_DIR, g, fn0], Entry.file c0)] := by
    simp [makedirsAux, fsLookup]
  by_cases hcase : fn0 = savedName g t
  · subst hcase
    have hw : writeFile (TRAINING_DATA_DIR ++ "/" ++ g ++ "/" ++ savedName g t)
        (.json (.jobj fields))
        [([TRAINING_DATA_DIR], Entry.dir), ([TRAINING_DATA_DIR, g], Entry.dir),
         ([TRAINING_DATA_DIR, g, savedName g t], Entry.file c0)] =
        .ok [([TRAINING_DATA_DIR], Entry.dir), ([TRAINING_DATA_DIR, g], Entry.dir),
             ([TRAINING_DATA_DIR, g, savedName g t], Entry.file (.json (.jobj fields)))] := by
      simp [writeFile, hsplit, fsLookup, fsSet, List.dropLast]
    simp only [savePipeline, parseBody, jGet, hG, hT, asStr, hdir, makedirs,
      splitPath_two htdh hg, hmk, hname, hpe]
    simp [hw]
  · have hw : writeFile (TRAINING_DATA_DIR ++ "/" ++ g ++ "/" ++ savedName g t)
        (.json (.jobj fields))
        [([TRAINING_DATA_DIR], Entry.dir), ([TRAINING_DATA_DIR, g], Entry.dir),
         ([TRAINING_DATA_DIR, g, fn0], Entry.file c0)] =
        .ok [([TRAINING_DATA_DIR], Entry.dir), ([TRAINING_DATA_DIR, g], Entry.dir),
             ([TRAINING_DATA_DIR, g, fn0], Entry.file c0),
             ([TRAINING_DATA_DIR, g, savedName g t], Entry.file (.json (.jobj fields)))] := by
      simp [writeFile, hsplit, fsLookup, fsSet, List.dropLast, hcase]
    simp only [savePipeline, parseBody, jGet, hG, hT, asStr, hdir, makedirs,
      splitPath_two htdh hg, hmk, hname, hpe]
    simp [hw, hcase]

theorem string_data_inj {s r : String} (h : s.data = r.data) : s = r := by
  cases s
  cases r
  cases h
  rfl

theorem savedName_inj {g t₁ t₂ : String}
    (h : replaceChar ':' '-' t₁ ≠ replaceChar ':' '-' t₂) :
    savedName g t₁ ≠ savedName g t₂ := by
  intro he
  apply h
  apply string_data_inj
  have hd : (savedName g t₁).data = (savedName g t₂).data := by rw [he]
  rw [savedName, savedName, data_append, data_append, data_append, data_append,
    data_append, data_append] at hd
  exact List.append_cancel_left (List.append_cancel_right hd)

theorem dictSet_mem {k : String} {v : List JValue} {m : List (String × List JValue)}
    {kv : String × List JValue} (h : kv ∈ dictSet k v m) :
    kv.1 = k ∨ kv.1 ∈ m.map Prod.fst := by
  induction m with
  | nil =>
    rw [dictSet] at h
    left
    rw [List.mem_singleton.mp h]
  | cons p rest ih =>
    by_cases hk : p.1 = k
    · rw [show dictSet k v (p :: rest) = (p.1, v) :: rest by
        cases p; simp only [dictSet]; rw [if_pos hk]] at h
      rcases List.mem_cons.mp h with h1 | h1
      · left; rw [h1, hk]
      · right; rw [List.map_cons]
        exact List.mem_cons_of_mem _ (List.mem_map_of_mem Prod.fst h1)
    · rw [show dictSet k v (p :: rest) = p :: dictSet k v rest by
        cases p; simp only [dictSet]; rw [if_neg hk]] at h
      rcases List.mem_cons.mp h with h1 | h1
      · right; rw [h1]; exact List.mem_map_of_mem Prod.fst (List.mem_cons_self p rest)
      · rcases ih h1 with h2 | h2
        · left; exact h2
        · right; rw [List.map_cons]; exact List.mem_cons_of_mem _ h2

theorem strEndsWith_json (x : String) : strEndsWith (x ++ ".json") ".json" = true := by
  simp only [strEndsWith, data_append, decide_eq_true_eq]
  exact List.suffix_append _ _

/-! ## Claim theorems -/

/-- Claim C1 (code bug): the spec scenario posts gesture hello/world with
landmarks [1,2,3] and expects the file under directory hello_world and a
subsequent load answering hello/world mapped to [[1,2,3]].  The code
sanitises the slash only in the directory name and embeds the raw gesture
in the file name, so the write targets
training-data/hello_world/hello/world_(timestamp).json, whose parent
directory does not exist: the save raises FileNotFoundError, the handler
answers 500, no sample file is written, and the subsequent load maps
hello/world to the empty list. -/
theorem C1_hello_world_eval :
    savePipeline
        (.wellFormed (.jobj [("gesture", .jstr "hello/world"),
          ("landmarks", .jarr [.jnum 1, .jnum 2, .jnum 3])]))
        "2024-01-01T00:00:00" [] =
      (.error (.fileNotFoundError
          "training-data/hello_world/hello/world_2024-01-01T00-00-00.json"),
        [(["training-data"], Entry.dir), (["training-data", "hello_world"], Entry.dir)]) ∧
    (handleSave
        (.wellFormed (.jobj [("gesture", .jstr "hello/world"),
          ("landmarks", .jarr [.jnum 1, .jnum 2, .jnum 3])]))
        "2024-01-01T00:00:00" []).1.status = 500 ∧
    loadAll [(["training-data"], Entry.dir), (["training-data", "hello_world"], Entry.dir)] =
      .ok [("hello/world", [])] :=
  ⟨rfl, rfl, rfl⟩

/-- Claim C4: if the training-data root does not exist, GET on the load
endpoint answers 200 with an empty JSON mapping, not an error. -/
theorem C4_missing_root_ok (fs : FS)
    (h : fsLookup (splitPath TRAINING_DATA_DIR) fs = none) :
    do_GET "/api/training-data/load" fs = some ⟨200, some (.jobj [])⟩ := by
  simp [do_GET, loadAll, h]

/-- Witness for C4 at the empty filesystem. -/
theorem C4_missing_root_ok_witness :
    fsLookup (splitPath TRAINING_DATA_DIR) [] = none ∧
    do_GET "/api/training-data/load" [] = some ⟨200, some (.jobj [])⟩ :=
  ⟨rfl, C4_missing_root_ok [] rfl⟩

/-- Claim C7: whenever the guarded save region raises — malformed body,
wrong field types, directory-creation or file-write failure — do_POST
answers 500 with a JSON object carrying the error key and exactly the
exception message. -/
theorem C7_exception_500 (raw : Raw) (now : String) (fs fs1 : FS) (e : PyErr)
    (headers : List (String × String)) (cl : String) (n : Int)
    (hcl : headerGet "Content-Length" headers = some cl) (hn : pyInt? cl = some n)
    (h : savePipeline raw now fs = (.error e, fs1)) :
    do_POST "/api/training-data" headers raw now fs =
      some (⟨500, some (errJson e.message)⟩, fs1) := by
  simp [do_POST, hcl, hn, handleSave, h]

/-- Witness for C7 at a malformed body. -/
theorem C7_exception_500_witness :
    headerGet "Content-Length" [("Content-Length", "2")] = some "2" ∧
    pyInt? "2" = some 2 ∧
    savePipeline (.malformed "Expecting value") "t" [] =
      (.error (.jsonDecodeError "Expecting value"), []) ∧
    do_POST "/api/training-data" [("Content-Length", "2")]
        (.malformed "Expecting value") "t" [] =
      some (⟨500, some (errJson "Expecting value")⟩, []) :=
  ⟨rfl, rfl, rfl,
    C7_exception_500 (.malformed "Expecting value") "t" [] []
      (.jsonDecodeError "Expecting value") [("Content-Length", "2")] "2" 2 rfl rfl rfl⟩

/-- Claim C8: a body that is valid JSON but not an object makes data.get
raise AttributeError inside the try block, so the handler answers 500 with
that message and the filesystem is untouched; the unknown-gesture and
current-time defaults apply only to objects. -/
theorem C8_non_object_500 (v : JValue) (hv : v.isObj = false)
    (now : String) (fs : FS) (headers : List (String × String)) (cl : String) (n : Int)
    (hcl : headerGet "Content-Length" headers = some cl) (hn : pyInt? cl = some n) :
    do_POST "/api/training-data" headers (.wellFormed v) now fs =
      some (⟨500, some (errJson (pyTypeName v ++ " object has no attribute get"))⟩, fs) := by
  cases v <;>
    simp_all [do_POST, handleSave, savePipeline, parseBody, jGet, JValue.isObj, pyTypeName,
      PyErr.message]

/-- Witness for C8 at an array body. -/
theorem C8_non_object_500_witness :
    (JValue.jarr [.jnum 1]).isObj = false ∧
    headerGet "Content-Length" [("Content-Length", "5")] = some "5" ∧
    pyInt? "5" = some 5 ∧
    do_POST "/api/training-data" [("Content-Length", "5")]
        (.wellFormed (.jarr [.jnum 1])) "t" [] =
      some (⟨500, some (errJson ("list object has no attribute get"))⟩, []) :=
  ⟨rfl, rfl, rfl,
    C8_non_object_500 (.jarr [.jnum 1]) rfl "t" [] [("Content-Length", "5")] "5" 5 rfl rfl⟩

/-- Claim C9: every gesture key the load endpoint returns has had every
underscore of the directory name replaced by a slash, so no returned key
contains an underscore; in particular a label saved containing an
underscore is never returned verbatim. -/
theorem C9_keys_no_underscore (fs : FS) (m : List (String × List JValue))
    (h : loadAll fs = .ok m) : ∀ kv ∈ m, strHasChar kv.1 '_' = false := by
  have main : ∀ (folders : List String) (acc : List (String × List JValue)),
      (∀ kv ∈ acc, strHasChar kv.1 '_' = false) →
      ∀ kv ∈ folders.foldl (fun acc2 folder =>
        if isDir (splitPath TRAINING_DATA_DIR ++ [folder]) fs then
          dictSet (replaceChar '_' '/' folder)
            ((listdir (splitPath TRAINING_DATA_DIR ++ [folder]) fs).foldl (fun ss fn =>
              if strEndsWith fn ".json" then
                match readLandmarks (splitPath TRAINING_DATA_DIR ++ [folder, fn]) fs with
                | some lm => ss ++ [lm]
                | none => ss
              else ss) []) acc2
        else acc2) acc, strHasChar kv.1 '_' = false := by
    intro folders
    induction folders with
    | nil => intro acc hacc; simpa using hacc
    | cons x xs ih =>
      intro acc hacc
      rw [List.foldl_cons]
      apply ih
      by_cases hx : isDir (splitPath TRAINING_DATA_DIR ++ [x]) fs
      · rw [if_pos hx]
        intro kv hkv
        rcases dictSet_mem hkv with h1 | h1
        · rw [h1]
          exact strHasChar_replaceChar_target x (by decide)
        · rcases List.mem_map.mp h1 with ⟨kv2, hkv2, he⟩
          exact he ▸ hacc kv2 hkv2
      · rw [if_neg hx]
        exact hacc
  rw [loadAll] at h
  cases hroot : fsLookup (splitPath TRAINING_DATA_DIR) fs with
  | none =>
    rw [hroot] at h
    injection h with h2
    intro kv hkv
    rw [← h2] at hkv
    cases hkv
  | some e =>
    cases e with
    | file c =>
      rw [hroot] at h
      injection h
    | dir =>
      rw [hroot] at h
      injection h with h2
      intro kv hkv
      rw [← h2] at hkv
      exact main _ [] (fun kv2 hkv2 => absurd hkv2 (List.not_mem_nil kv2)) kv hkv

/-- Witness for C9 at a store holding one directory named a_b. -/
theorem C9_keys_no_underscore_witness :
    loadAll [(["training-data"], Entry.dir), (["training-data", "a_b"], Entry.dir)] =
      .ok [("a/b", [])] ∧
    strHasChar "a/b" '_' = false :=
  ⟨rfl,
    C9_keys_no_underscore
      [(["training-data"], Entry.dir), (["training-data", "a_b"], Entry.dir)]
      [("a/b", [])] rfl ("a/b", []) (List.mem_singleton.mpr rfl)⟩

/-- Claim C10: a POST to the save endpoint without a Content-Length header
raises while computing the body length, before the try block, so the
handler produces no HTTP response at all — the 500-on-exception guarantee
covers only the parse-and-write region. -/
theorem C10_no_content_length (headers : List (String × String)) (raw : Raw)
    (now : String) (fs : FS) (h : headerGet "Content-Length" headers = none) :
    do_POST "/api/training-data" headers raw now fs = none := by
  simp [do_POST, h]

/-- Witness for C10 at an empty header list. -/
theorem C10_no_content_length_witness :
    headerGet "Content-Length" [] = none ∧
    do_POST "/api/training-data" [] (.malformed "x") "t" [] = none :=
  ⟨rfl, C10_no_content_length [] (.malformed "x") "t" [] rfl⟩

/-- Claim C2 (amended): for a gesture label that is nonempty and contains
neither slash nor underscore, and a timestamp containing no slash, saving
a sample into an empty store and then loading yields exactly that
landmarks value under exactly that label, and the slash-to-underscore
round trip (save direction then load direction) is the identity on the
label. -/
theorem C2_save_load_roundtrip (g t now : String) (lm : JValue)
    (hg : strHasChar g '/' = false) (hg2 : strHasChar g '_' = false)
    (hg0 : g ≠ "") (ht : strHasChar t '/' = false) :
    loadAll (savePipeline (.wellFormed (samplePayload g t lm)) now []).2 =
      .ok [(g, [lm])] ∧
    replaceChar '_' '/' (replaceChar '/' '_' g) = g := by
  have hG : (dictGet "gesture"
      [("gesture", JValue.jstr g), ("timestamp", JValue.jstr t), ("landmarks", lm)]).getD
        (.jstr "unknown") = .jstr g := by
    simp [dictGet]
  have hT : (dictGet "timestamp"
      [("gesture", JValue.jstr g), ("timestamp", JValue.jstr t), ("landmarks", lm)]).getD
        (.jstr now) = .jstr t := by
    simp [dictGet]
  have hlm : jLandmarks (.jobj
      [("gesture", JValue.jstr g), ("timestamp", JValue.jstr t), ("landmarks", lm)]) =
      some lm := by
    simp [jLandmarks, dictGet]
  have hfnj : strEndsWith (savedName g t) ".json" = true := by
    rw [savedName]
    exact strEndsWith_json _
  constructor
  · rw [samplePayload, savePipeline_obj hG hT hg hg0 ht]
    show loadAll [([TRAINING_DATA_DIR], Entry.dir), ([TRAINING_DATA_DIR, g], Entry.dir),
      ([TRAINING_DATA_DIR, g, savedName g t],
       Entry.file (.json (.jobj [("gesture", JValue.jstr g), ("timestamp", JValue.jstr t),
         ("landmarks", lm)])))] = .ok [(g, [lm])]
    rw [loadAll_single hfnj hlm, replaceChar_id hg2]
  · rw [replaceChar_id hg]
    exact replaceChar_id hg2

/-- Counterexample to C2 as stated: the label a_b (which contains an
underscore) is saved under directory a_b, but the load endpoint returns
its landmarks under key a/b, not under a_b. -/
theorem C2_underscore_counterexample :
    loadAll (savePipeline (.wellFormed (samplePayload "a_b" "10-00" (.jnum 7))) "n" []).2 =
      .ok [("a/b", [.jnum 7])] ∧
    ("a/b" : String) ≠ "a_b" :=
  ⟨rfl, by decide⟩

/-- Witness for C2 at the label wave. -/
theorem C2_save_load_roundtrip_witness :
    strHasChar "wave" '/' = false ∧ strHasChar "wave" '_' = false ∧
    ("wave" : String) ≠ "" ∧ strHasChar "2024-01-01T00:00:00" '/' = false ∧
    (loadAll (savePipeline
        (.wellFormed (samplePayload "wave" "2024-01-01T00:00:00" (.jnum 5))) "n" []).2 =
      .ok [("wave", [.jnum 5])] ∧
    replaceChar '_' '/' (replaceChar '/' '_' "wave") = "wave") :=
  ⟨rfl, rfl, by decide, rfl,
    C2_save_load_roundtrip "wave" "2024-01-01T00:00:00" "n" (.jnum 5) rfl rfl (by decide) rfl⟩

/-- Claim C3 (amended): two saves to the same gesture label, from an empty
store: timestamps whose colon-to-dash replacements differ produce two
distinct files and neither overwrites the other; the same timestamp twice
targets exactly one file and the second write is the final content. -/
theorem C3_two_saves (g t₁ t₂ now : String) (lm₁ lm₂ : JValue)
    (hg : strHasChar g '/' = false) (hg0 : g ≠ "")
    (ht₁ : strHasChar t₁ '/' = false) (ht₂ : strHasChar t₂ '/' = false) :
    (replaceChar ':' '-' t₁ ≠ replaceChar ':' '-' t₂ →
      fsLookup [TRAINING_DATA_DIR, g, savedName g t₁]
          (savePipeline (.wellFormed (samplePayload g t₂ lm₂)) now
            (savePipeline (.wellFormed (samplePayload g t₁ lm₁)) now []).2).2 =
        some (Entry.file (.json (samplePayload g t₁ lm₁))) ∧
      fsLookup [TRAINING_DATA_DIR, g, savedName g t₂]
          (savePipeline (.wellFormed (samplePayload g t₂ lm₂)) now
            (savePipeline (.wellFormed (samplePayload g t₁ lm₁)) now []).2).2 =
        some (Entry.file (.json (samplePayload g t₂ lm₂)))) ∧
    (t₁ = t₂ →
      countFiles (savePipeline (.wellFormed (samplePayload g t₂ lm₂)) now
            (savePipeline (.wellFormed (samplePayload g t₁ lm₁)) now []).2).2 = 1 ∧
      fsLookup [TRAINING_DATA_DIR, g, savedName g t₂]
          (savePipeline (.wellFormed (samplePayload g t₂ lm₂)) now
            (savePipeline (.wellFormed (samplePayload g t₁ lm₁)) now []).2).2 =
        some (Entry.file (.json (samplePayload g t₂ lm₂)))) := by
  have hG1 : (dictGet "gesture"
      [("gesture", JValue.jstr g), ("timestamp", JValue.jstr t₁), ("landmarks", lm₁)]).getD
        (.jstr "unknown") = .jstr g := by
    simp [dictGet]
  have hT1 : (dictGet "timestamp"
      [("gesture", JValue.jstr g), ("timestamp", JValue.jstr t₁), ("landmarks", lm₁)]).getD
        (.jstr now) = .jstr t₁ := by
    simp [dictGet]
  have hG2 : (dictGet "gesture"
      [("gesture", JValue.jstr g), ("timestamp", JValue.jstr t₂), ("landmarks", lm₂)]).getD
        (.jstr "unknown") = .jstr g := by
    simp [dictGet]
  have hT2 : (dictGet "timestamp"
      [("gesture", JValue.jstr g), ("timestamp", JValue.jstr t₂), ("landmarks", lm₂)]).getD
        (.jstr now) = .jstr t₂ := by
    simp [dictGet]
  have hs1 := savePipeline_obj hG1 hT1 hg hg0 ht₁
  have hs2 := @savePipeline_second
    [("gesture", JValue.jstr g), ("timestamp", JValue.jstr t₂), ("landmarks", lm₂)]
    now g t₂ (savedName g t₁)
    (.json (.jobj [("gesture", JValue.jstr g), ("timestamp", JValue.jstr t₁),
      ("landmarks", lm₁)]))
    hG2 hT2 hg hg0 ht₂
  constructor
  · intro hne
    have hfne : savedName g t₁ ≠ savedName g t₂ := savedName_inj hne
    simp only [samplePayload, hs1, hs2]
    simp [hfne, fsLookup]
  · intro he
    subst he
    simp only [samplePayload, hs1, hs2]
    constructor
    · simp [countFiles]
    · simp [fsLookup]

/-- Counterexample to C3 as stated: the distinct timestamps a:b and a-b
collide after the colon-to-dash replacement, so both saves target the file
x_a-b.json; the store ends with a single sample file holding the second
payload, the first one having been overwritten. -/
theorem C3_colon_counterexample :
    ("a:b" : String) ≠ "a-b" ∧
    (savePipeline (.wellFormed (samplePayload "x" "a-b" (.jnum 2))) "n"
      (savePipeline (.wellFormed (samplePayload "x" "a:b" (.jnum 1))) "n" []).2).2 =
      [(["training-data"], Entry.dir), (["training-data", "x"], Entry.dir),
       (["training-data", "x", "x_a-b.json"],
        Entry.file (.json (samplePayload "x" "a-b" (.jnum 2))))] ∧
    countFiles (savePipeline (.wellFormed (samplePayload "x" "a-b" (.jnum 2))) "n"
      (savePipeline (.wellFormed (samplePayload "x" "a:b" (.jnum 1))) "n" []).2).2 = 1 :=
  ⟨by decide, rfl, rfl⟩

/-- Witness for C3 at gesture x with timestamps 10:00 and 11:00. -/
theorem C3_two_saves_witness :
    strHasChar "x" '/' = false ∧ ("x" : String) ≠ "" ∧
    strHasChar "10:00" '/' = false ∧ strHasChar "11:00" '/' = false ∧
    ((replaceChar ':' '-' "10:00" ≠ replaceChar ':' '-' "11:00" →
      fsLookup ["training-data", "x", savedName "x" "10:00"]
          (savePipeline (.wellFormed (samplePayload "x" "11:00" (.jnum 2))) "n"
            (savePipeline (.wellFormed (samplePayload "x" "10:00" (.jnum 1))) "n" []).2).2 =
        some (Entry.file (.json (samplePayload "x" "10:00" (.jnum 1)))) ∧
      fsLookup ["training-data", "x", savedName "x" "11:00"]
          (savePipeline (.wellFormed (samplePayload "x" "11:00" (.jnum 2))) "n"
            (savePipeline (.wellFormed (samplePayload "x" "10:00" (.jnum 1))) "n" []).2).2 =
        some (Entry.file (.json (samplePayload "x" "11:00" (.jnum 2))))) ∧
    (("10:00" : String) = "11:00" →
      countFiles (savePipeline (.wellFormed (samplePayload "x" "11:00" (.jnum 2))) "n"
            (savePipeline (.wellFormed (samplePayload "x" "10:00" (.jnum 1))) "n" []).2).2 = 1 ∧
      fsLookup ["training-data", "x", savedName "x" "11:00"]
          (savePipeline (.wellFormed (samplePayload "x" "11:00" (.jnum 2))) "n"
            (savePipeline (.wellFormed (samplePayload "x" "10:00" (.jnum 1))) "n" []).2).2 =
        some (Entry.file (.json (samplePayload "x" "11:00" (.jnum 2)))))) :=
  ⟨rfl, by decide, rfl, rfl,
    C3_two_saves "x" "10:00" "11:00" "n" (.jnum 1) (.jnum 2) rfl (by decide) rfl rfl⟩

/-- Claim C5: a gesture directory holding one well-formed sample file and
one corrupt file still yields the well-formed landmarks and omits the
corrupt file, and the scan succeeds with 200 — the per-file failure does
not abort the overall scan. -/
theorem C5_corrupt_isolated (d n₁ n₂ msg : String) (v lm : JValue)
    (hn : n₁ ≠ n₂) (h1 : strEndsWith n₁ ".json" = true)
    (h2 : strEndsWith n₂ ".json" = true) (hv : jLandmarks v = some lm) :
    loadAll [([TRAINING_DATA_DIR], Entry.dir), ([TRAINING_DATA_DIR, d], Entry.dir),
             ([TRAINING_DATA_DIR, d, n₁], Entry.file (.json v)),
             ([TRAINING_DATA_DIR, d, n₂], Entry.file (.corrupt msg))] =
      .ok [(replaceChar '_' '/' d, [lm])] ∧
    do_GET "/api/training-data/load"
        [([TRAINING_DATA_DIR], Entry.dir), ([TRAINING_DATA_DIR, d], Entry.dir),
         ([TRAINING_DATA_DIR, d, n₁], Entry.file (.json v)),
         ([TRAINING_DATA_DIR, d, n₂], Entry.file (.corrupt msg))] =
      some ⟨200, some (.jobj [(replaceChar '_' '/' d, .jarr [lm])])⟩ := by
  have hload : loadAll [([TRAINING_DATA_DIR], Entry.dir), ([TRAINING_DATA_DIR, d], Entry.dir),
      ([TRAINING_DATA_DIR, d, n₁], Entry.file (.json v)),
      ([TRAINING_DATA_DIR, d, n₂], Entry.file (.corrupt msg))] =
      .ok [(replaceChar '_' '/' d, [lm])] := by
    simp [loadAll, splitPath_root, fsLookup, listdir, isDir, readLandmarks, hv, h1, h2, hn,
      dictSet, List.filterMap, List.take, List.foldl]
  exact ⟨hload, by simp [do_GET, hload]⟩

/-- Witness for C5 at directory wave with files a.json and b.json. -/
theorem C5_corrupt_isolated_witness :
    ("a.json" : String) ≠ "b.json" ∧
    strEndsWith "a.json" ".json" = true ∧
    strEndsWith "b.json" ".json" = true ∧
    jLandmarks (.jobj [("landmarks", .jnum 3)]) = some (.jnum 3) ∧
    (loadAll [(["training-data"], Entry.dir), (["training-data", "wave"], Entry.dir),
              (["training-data", "wave", "a.json"],
               Entry.file (.json (.jobj [("landmarks", .jnum 3)]))),
              (["training-data", "wave", "b.json"], Entry.file (.corrupt "bad"))] =
      .ok [("wave", [.jnum 3])] ∧
    do_GET "/api/training-data/load"
        [(["training-data"], Entry.dir), (["training-data", "wave"], Entry.dir),
         (["training-data", "wave", "a.json"],
          Entry.file (.json (.jobj [("landmarks", .jnum 3)]))),
         (["training-data", "wave", "b.json"], Entry.file (.corrupt "bad"))] =
      some ⟨200, some (.jobj [("wave", .jarr [.jnum 3])])⟩) :=
  ⟨by decide, rfl, rfl, rfl,
    C5_corrupt_isolated "wave" "a.json" "b.json" "bad"
      (.jobj [("landmarks", .jnum 3)]) (.jnum 3) (by decide) rfl rfl rfl⟩

/-- Claim C6 (amended): a JSON object body without a gesture field is
treated as gesture unknown: provided the effective timestamp (the explicit
field, or the supplied current time when the field is absent) is a string
containing no slash, the sample file is written under the directory named
unknown and the handler answers 200. -/
theorem C6_missing_gesture_unknown (fields : List (String × JValue)) (now t : String)
    (hG : dictGet "gesture" fields = none)
    (hT : (dictGet "timestamp" fields).getD (.jstr now) = .jstr t)
    (ht : strHasChar t '/' = false) :
    (savePipeline (.wellFormed (.jobj fields)) now []).2 =
      [([TRAINING_DATA_DIR], Entry.dir), ([TRAINING_DATA_DIR, "unknown"], Entry.dir),
       ([TRAINING_DATA_DIR, "unknown", savedName "unknown" t],
        Entry.file (.json (.jobj fields)))] ∧
    (handleSave (.wellFormed (.jobj fields)) now []).1.status = 200 := by
  have hG2 : (dictGet "gesture" fields).getD (.jstr "unknown") = .jstr "unknown" := by
    rw [hG]
    rfl
  have hs := savePipeline_obj hG2 hT (by decide) (by decide) ht
  constructor
  · rw [hs]
  · simp [handleSave, hs]

/-- Counterexample to C6 as stated: a body with no gesture field but a
timestamp containing a slash: the derived file name unknown_a/b.json
contains a separator, the write raises FileNotFoundError, the handler
answers 500 and no file at all is written (the unknown directory stays
empty). -/
theorem C6_slash_timestamp_counterexample :
    savePipeline
        (.wellFormed (.jobj [("timestamp", .jstr "a/b"), ("landmarks", .jnum 1)])) "n" [] =
      (.error (.fileNotFoundError "training-data/unknown/unknown_a/b.json"),
       [(["training-data"], Entry.dir), (["training-data", "unknown"], Entry.dir)]) ∧
    (handleSave
        (.wellFormed (.jobj [("timestamp", .jstr "a/b"), ("landmarks", .jnum 1)]))
        "n" []).1.status = 500 ∧
    countFiles (savePipeline
        (.wellFormed (.jobj [("timestamp", .jstr "a/b"), ("landmarks", .jnum 1)]))
        "n" []).2 = 0 :=
  ⟨rfl, rfl, rfl⟩

/-- Witness for C6 at a body holding only landmarks, with the current time
supplied as the timestamp. -/
theorem C6_missing_gesture_unknown_witness :
    dictGet "gesture" [("landmarks", JValue.jnum 1)] = none ∧
    (dictGet "timestamp" [("landmarks", JValue.jnum 1)]).getD
        (.jstr "2024-01-01T00:00:00") = .jstr "2024-01-01T00:00:00" ∧
    strHasChar "2024-01-01T00:00:00" '/' = false ∧
    ((savePipeline (.wellFormed (.jobj [("landmarks", JValue.jnum 1)]))
        "2024-01-01T00:00:00" []).2 =
      [(["training-data"], Entry.dir), (["training-data", "unknown"], Entry.dir),
       (["training-data", "unknown", savedName "unknown" "2024-01-01T00:00:00"],
        Entry.file (.json (.jobj [("landmarks", JValue.jnum 1)])))] ∧
    (handleSave (.wellFormed (.jobj [("landmarks", JValue.jnum 1)]))
        "2024-01-01T00:00:00" []).1.status = 200) :=
  ⟨rfl, rfl, rfl,
    C6_missing_gesture_unknown [("landmarks", JValue.jnum 1)]
      "2024-01-01T00:00:00" "2024-01-01T00:00:00" rfl rfl rfl⟩

end Liora
